import Mathlib

/-!
Verification of the task-tracking core of the Summarize-and-Chat
summarization server, together with three request handlers found in
`src/routers/convert.py` and `src/routers/multidoc.py`.

The Job Registry / Task Runner module (`src/utils/task.py`) is imported by
the routers but its source is not present in this tree; its definitions
below are modelled from the specification (sections 3, 4.1, 4.2, 4.3
and 6) and are marked `Modelled from the spec:` in their doc comments.
The router handlers are embedded directly from the Python source.
-/

set_option autoImplicit false

namespace SummarizeChat

/-- Status labels of a conversion job (spec §3: `starting | processing |
done | error`). -/
inductive Status where
  | starting
  | processing
  | done
  | error
deriving DecidableEq, Repr

/-- The string form of a status label as stored in the registry records. -/
def Status.toString : Status → String
  | .starting => "starting"
  | .processing => "processing"
  | .done => "done"
  | .error => "error"

/-- A Job record (spec §3): a status label and an optional error message. -/
structure Job where
  status : Status
  message : Option String := none
deriving DecidableEq, Repr

/-- Modelled from the spec: the Job Registry (`ACTIVE_TASKS` in
`src/utils/task.py`, which is absent from the tree) — a process-wide
mapping from job id (file path string) to Job (spec §2, §4.1), embedded as
an association list. -/
abbrev Registry := List (String × Job)

/-- The empty registry, the process-start state (spec §2). -/
def Registry.empty : Registry := []

/-- Modelled from the spec: `get(id)` returns the current Job or an
absence indicator if no record exists (spec §4.1). -/
def Registry.get (reg : Registry) (id : String) : Option Job :=
  (reg.find? (fun p => p.1 == id)).map (fun p => p.2)

/-- Modelled from the spec: `remove(id)` deletes the record if present;
no-op if absent (spec §4.1). -/
def Registry.remove (reg : Registry) (id : String) : Registry :=
  reg.filter (fun p => p.1 != id)

/-- Modelled from the spec: `set(id, status, message=None)` inserts or
overwrites the record for `id` (spec §4.1). -/
def Registry.set (reg : Registry) (id : String) (st : Status)
    (msg : Option String := none) : Registry :=
  Registry.remove reg id ++ [(id, { status := st, message := msg })]

/-- Modelled from the spec: `snapshot()` returns a copy of all current
records (spec §4.1); in the pure embedding a copy is the value itself. -/
def Registry.snapshot (reg : Registry) : Registry := reg

/-- The number of records stored under a given id. -/
def Registry.countKey (reg : Registry) (id : String) : Nat :=
  reg.countP (fun p => p.1 == id)

/-- The registry invariant of spec §3: at most one record per file path,
and a record carries a message only in the `error` state. -/
def Registry.WF (reg : Registry) : Prop :=
  (reg.map Prod.fst).Nodup ∧
    ∀ p ∈ reg, p.2.message.isSome → p.2.status = Status.error

instance (reg : Registry) : Decidable reg.WF := by
  unfold Registry.WF
  infer_instance

-- Basic registry lemmas

theorem Registry.find?_remove_self (reg : Registry) (id : String) :
    (reg.remove id).find? (fun p => p.1 == id) = none := by
  unfold Registry.remove
  rw [List.find?_eq_none]
  intro p hp
  rcases List.mem_filter.mp hp with ⟨_, hpred⟩
  simp only [bne_iff_ne, ne_eq, decide_eq_true_eq] at hpred
  simp [hpred]

theorem Registry.get_remove_self (reg : Registry) (id : String) :
    (reg.remove id).get id = none := by
  unfold Registry.get
  rw [Registry.find?_remove_self]
  rfl

theorem Registry.self_not_mem_remove_keys (reg : Registry) (id : String) :
    id ∉ ((reg.remove id).map Prod.fst) := by
  intro hmem
  rcases List.mem_map.mp hmem with ⟨p, hp, hfst⟩
  rcases List.mem_filter.mp hp with ⟨_, hpred⟩
  simp only [bne_iff_ne, ne_eq, decide_eq_true_eq] at hpred
  exact hpred hfst

theorem Registry.remove_WF (reg : Registry) (id : String) (h : reg.WF) :
    (reg.remove id).WF := by
  rcases h with ⟨hnd, hmsg⟩
  constructor
  · exact hnd.sublist (List.Sublist.map Prod.fst (List.filter_sublist _))
  · intro p hp
    exact hmsg p (List.mem_filter.mp hp).1

theorem Registry.set_WF (reg : Registry) (id : String) (st : Status)
    (msg : Option String) (h : reg.WF) (hmsg : msg.isSome → st = Status.error) :
    (reg.set id st msg).WF := by
  rcases Registry.remove_WF reg id h with ⟨hnd, hmem⟩
  constructor
  · unfold Registry.set
    rw [List.map_append]
    apply List.Nodup.append hnd (List.nodup_singleton id)
    intro a ha hb
    rw [List.mem_singleton] at hb
    exact Registry.self_not_mem_remove_keys reg id (hb ▸ ha)
  · intro p hp
    unfold Registry.set at hp
    rcases List.mem_append.mp hp with hl | hr
    · exact hmem p hl
    · rw [List.mem_singleton] at hr
      subst hr
      exact hmsg

theorem Registry.countP_key_le_one (reg : Registry) (id : String)
    (hnd : (reg.map Prod.fst).Nodup) : reg.countP (fun p => p.1 == id) ≤ 1 := by
  induction reg with
  | nil => simp
  | cons p rest ih =>
    rw [List.map_cons, List.nodup_cons] at hnd
    rcases hnd with ⟨hni, hnd⟩
    by_cases hkey : p.1 = id
    · subst hkey
      rw [List.countP_cons_of_pos _ _ (by simp)]
      have hzero : rest.countP (fun q => q.1 == p.1) = 0 := by
        rw [List.countP_eq_zero]
        intro q hq
        simp only [beq_iff_eq]
        intro hcontra
        exact hni (List.mem_map.mpr ⟨q, hq, hcontra⟩)
      omega
    · rw [List.countP_cons_of_neg _ _ (by simp [hkey])]
      exact ih hnd

theorem Registry.countKey_le_one (reg : Registry) (id : String)
    (h : reg.WF) : reg.countKey id ≤ 1 :=
  Registry.countP_key_le_one reg id h.1

/-! ## Task Runner (spec §4.2), modelled from the spec -/

/-- Modelled from the spec: the possible results of invoking the external
transcription tool (spec §4.2 step 3, §6, §7): exit code 0, a non-zero exit
code with captured standard-error text, or an unexpected fault raised
during the invocation. -/
inductive ToolOutcome where
  | success
  | failure (stderr : String)
  | fault
deriving DecidableEq, Repr

/-- A registry action performed by `run` on its job's record, recorded in
order of occurrence: a `set` with the written status and message, or the
final removal. -/
inductive JobEvent where
  | set (st : Status) (msg : Option String)
  | remove
deriving DecidableEq, Repr

/-- Everything observable about one execution of the Task Runner:
the registry it leaves behind, the ordered registry actions on the job's
record, the notification-callback invocations `(user, filename)`, the
emitted log lines, and whether an exception propagates to the caller. -/
structure RunResult where
  registry : Registry
  events : List JobEvent
  notifications : List (String × String)
  logs : List String
  raised : Bool
deriving DecidableEq, Repr

/-- Modelled from the spec: the Task Runner `run(path, audio_file_name,
user)` of §4.2 (`src/utils/task.py` is absent from the tree). Steps:
1. set `starting`; 2. set `processing`; 3. invoke the external tool (its
result is the `outcome` argument); 4. on exit 0 set `done` and invoke the
notification callback with `(user, audio_file_name)`; 5. on non-zero exit
set `error` with the captured stderr and log the failure, raising nothing;
6. in a `finally`-style block, unconditionally remove the record for
`path` — an unexpected fault still triggers this cleanup before it
escapes. -/
def run (path audio_file_name user : String) (outcome : ToolOutcome)
    (reg : Registry) : RunResult :=
  let reg1 := reg.set path Status.starting none
  let reg2 := reg1.set path Status.processing none
  match outcome with
  | ToolOutcome.success =>
      let reg3 := reg2.set path Status.done none
      { registry := reg3.remove path
        events := [JobEvent.set Status.starting none,
                   JobEvent.set Status.processing none,
                   JobEvent.set Status.done none,
                   JobEvent.remove]
        notifications := [(user, audio_file_name)]
        logs := []
        raised := false }
  | ToolOutcome.failure stderr =>
      let reg3 := reg2.set path Status.error (some stderr)
      { registry := reg3.remove path
        events := [JobEvent.set Status.starting none,
                   JobEvent.set Status.processing none,
                   JobEvent.set Status.error (some stderr),
                   JobEvent.remove]
        notifications := []
        logs := ["audio conversion failed for " ++ path ++ ": " ++ stderr]
        raised := false }
  | ToolOutcome.fault =>
      { registry := reg2.remove path
        events := [JobEvent.set Status.starting none,
                   JobEvent.set Status.processing none,
                   JobEvent.remove]
        notifications := []
        logs := []
        raised := true }

/-! ## Status-query operations (spec §4.3), modelled from the spec -/

/-- The response shape of `GET /task-status` (spec §6): the full registry
snapshot wrapped under the key `active_tasks`. -/
structure TaskStatusResponse where
  active_tasks : Registry
deriving DecidableEq, Repr

/-- Modelled from the spec: `task_status()` returns the full Registry
snapshot, which `GET /task-status` serves as
`{"active_tasks": {job_id: {status, message?}}}` (spec §4.3, §6). -/
def task_status (reg : Registry) : TaskStatusResponse :=
  { active_tasks := reg.snapshot }

/-- The response shape of the per-job status query (spec §6):
`{"status": <string>}`. -/
structure ProcessResponse where
  status : String
deriving DecidableEq, Repr

/-- Modelled from the spec: the job id for a user's audio file — the
expected key combines the configured storage root (`FILE_PATH`), the user
and the audio file name, matching the key format built by the submitting
router (`FILE_PATH/<username>/<audio name>`, see `vtts` in
`src/routers/convert.py`). -/
def jobId (file_path user audio_file : String) : String :=
  file_path ++ "/" ++ user ++ "/" ++ audio_file

/-- Modelled from the spec: `task_process(audio_file, user)` computes the
expected job id from the configured storage root, `user` and `audio_file`,
looks it up, and returns its status string, or `{"status": "not found"}`
if absent (spec §4.3). -/
def task_process (file_path : String) (reg : Registry)
    (audio_file user : String) : ProcessResponse :=
  match reg.get (jobId file_path user audio_file) with
  | some job => { status := job.status.toString }
  | none => { status := "not found" }

/-- `GET /convert-process` (`get_process` in `src/routers/convert.py`,
lines 38–40): delegates to `task_process` with the query's audio name and
the authenticated username. -/
def get_process (file_path : String) (reg : Registry)
    (audio username : String) : ProcessResponse :=
  task_process file_path reg audio username

/-- `GET /task-status` (`get_task_status` in `src/routers/convert.py`,
lines 43–45): returns `task_status()` unchanged. -/
def get_task_status (reg : Registry) : TaskStatusResponse :=
  task_status reg

/-! ## `POST /api/v1/audio-to-vtt` (`src/routers/convert.py`, lines 21–23) -/

/-- The `{'status': ..., 'message': ...}` dictionaries returned by the
routers. -/
structure ApiMessage where
  status : String
  message : String
deriving DecidableEq, Repr

/-- The observable outcome of a request handler: its response together
with the registry it leaves behind, the `submit_task` calls it made and
the number of external-tool invocations it performed. -/
structure HandlerEffects where
  response : ApiMessage
  registry : Registry
  submitted_tasks : List String
  tool_invocations : Nat
deriving DecidableEq, Repr

/-- `audio_to_vtt` from `src/routers/convert.py` (lines 21–23): after
token verification its whole body is
`return {'status': 'success', 'message': 'audio into convert queue'}` —
the handler is embedded in state-threading style, the registry passing
through untouched and no task being submitted. -/
def audio_to_vtt ( doc : String) (reg : Registry) : HandlerEffects :=
  { response := { status := "success", message := "audio into convert queue" }
    registry := reg
    submitted_tasks := []
    tool_invocations := 0 }

/-! ## `GET /api/v1/vtt` (`src/routers/convert.py`, lines 48–70) -/

/-- What the out-of-scope file helpers report about the vtt file of one
audio file: its name (`vtt.name`) and its formatted last-modified time
(`datetime.fromtimestamp(vtt.stat().st_mtime).strftime(...)`). -/
structure VttFile where
  name : String
  time : String
deriving DecidableEq, Repr

/-- One element of the `result` list built by `vtts`. -/
structure VttRow where
  audio : String
  vtt : String
  status : String
  time : String
deriving DecidableEq, Repr

/-- The loop body of `vtts` for one `audio` name: `get_vtt` is the oracle
for the out-of-scope helper chain `get_vtt(audio, username)` /
`vtt.exists()` / `vtt.stat()`, returning `some` with the vtt's name and
formatted mtime exactly when the vtt file exists. Otherwise the handler
builds `audio_path = f"{FILE_PATH}/{username}/{audio.name}"` and reports
`'in progress'` when that string is a key of `ACTIVE_TASKS`, else the
initial `'waiting'`. -/
def vttRow (file_path username : String) (active_tasks : Registry)
    (get_vtt : String → Option VttFile) (audio : String) : VttRow :=
  match get_vtt audio with
  | some v => { audio := audio, vtt := v.name, status := "done", time := v.time }
  | none =>
      let audio_path := file_path ++ "/" ++ username ++ "/" ++ audio
      if (active_tasks.get audio_path).isSome then
        { audio := audio, vtt := "", status := "in progress", time := "" }
      else
        { audio := audio, vtt := "", status := "waiting", time := "" }

/-- `vtts` from `src/routers/convert.py` (lines 48–70): maps the loop body
over `get_audios(token.username)` and wraps the rows as `{'data': result}`. -/
def vtts (file_path username : String) (active_tasks : Registry)
    (audios : List String) (get_vtt : String → Option VttFile) :
    List VttRow :=
  audios.map (vttRow file_path username active_tasks get_vtt)

/-! ## `POST /api/v1/analyze` (`src/routers/multidoc.py`, lines 13–26) -/

/-- `ErrorResponse(message, code)` from the out-of-scope auth service, as
called by the handlers. -/
structure ErrorResponse where
  message : String
  code : Nat
deriving DecidableEq, Repr

/-- The `for f in data.file` loop of `multi_document`: for each file, if
`Path(f"{FILE_PATH}/{username}/{f}")` does not exist the handler returns
`ErrorResponse(f'please upload your {f} first!', 400)`; otherwise it
accumulates `f.split('.')[-1]` into `filetype` when not yet present and
continues. `none` means the loop ran to completion. -/
def multi_document_loop (doc_exists : String → Bool)
    (file_path username : String) :
    List String → List String → Option ErrorResponse
  | [], _ => none
  | f :: rest, filetype =>
      let doc_path := file_path ++ "/" ++ username ++ "/" ++ f
      if ¬ doc_exists doc_path then
        some { message := "please upload your " ++ f ++ " first!", code := 400 }
      else
        let type := (f.splitOn ".").getLastD ""
        multi_document_loop doc_exists file_path username rest
          (if type ∈ filetype then filetype else filetype ++ [type])

/-- `multi_document` from `src/routers/multidoc.py` (lines 13–26): runs
the existence-checking loop over `data.file` starting from the empty
`filetype` list and, only when every file exists, awaits and returns
`multi_document_analyze(data, username)` (embedded as the abstract
`analyze` argument applied to the file list and username). -/
def multi_document {α : Type} (doc_exists : String → Bool)
    (analyze : List String → String → α) (file_path username : String)
    (file : List String) : Except ErrorResponse α :=
  match multi_document_loop doc_exists file_path username file [] with
  | some err => Except.error err
  | none => Except.ok (analyze file username)

/-- The event-sequence shape required of a completed job: `starting`,
`processing`, exactly one of `done` or `error`, then removal. -/
def completesInOrder (evs : List JobEvent) : Bool :=
  match evs with
  | [JobEvent.set Status.starting none, JobEvent.set Status.processing none,
     JobEvent.set Status.done none, JobEvent.remove] => true
  | [JobEvent.set Status.starting none, JobEvent.set Status.processing none,
     JobEvent.set Status.error (some _), JobEvent.remove] => true
  | _ => false

/-! ## Supporting lemmas -/

theorem Registry.mem_of_get_eq_some (reg : Registry) (id : String)
    (job : Job) (h : reg.get id = some job) :
    ∃ p ∈ reg, p.1 = id ∧ p.2 = job := by
  unfold Registry.get at h
  rcases Option.map_eq_some'.mp h with ⟨p, hfind, hsnd⟩
  have hmem := List.mem_of_find?_eq_some hfind
  have hkey := List.find?_some hfind
  simp only [beq_iff_eq] at hkey
  exact ⟨p, hmem, hkey, hsnd⟩

theorem multi_document_loop_eq_none (doc_exists : String → Bool)
    (file_path username : String) (files ft : List String) :
    multi_document_loop doc_exists file_path username files ft = none ↔
      ∀ f ∈ files, doc_exists (file_path ++ "/" ++ username ++ "/" ++ f) = true := by
  induction files generalizing ft with
  | nil => simp [multi_document_loop]
  | cons f rest ih =>
    by_cases h : doc_exists (file_path ++ "/" ++ username ++ "/" ++ f) = true
    · simp [multi_document_loop, h, ih]
    · simp [multi_document_loop, h]

theorem multi_document_loop_first_missing (doc_exists : String → Bool)
    (file_path username f0 : String) (files ft : List String)
    (h : files.find?
        (fun f => !(doc_exists (file_path ++ "/" ++ username ++ "/" ++ f))) = some f0) :
    multi_document_loop doc_exists file_path username files ft =
      some { message := "please upload your " ++ f0 ++ " first!", code := 400 } := by
  induction files generalizing ft with
  | nil => simp at h
  | cons f rest ih =>
    by_cases hf : doc_exists (file_path ++ "/" ++ username ++ "/" ++ f) = true
    · rw [List.find?_cons_of_neg _ (by simp [hf])] at h
      simpa [multi_document_loop, hf] using ih _ h
    · rw [List.find?_cons_of_pos _ (by simp [hf])] at h
      cases h
      simp [multi_document_loop, hf]

/-! ## Claims -/

/-- C1: for every job path and every outcome of the external tool
invocation (zero exit, non-zero exit, or an unexpected fault), `run`
removes the record for `path` from the Job Registry before returning, so
afterwards the registry contains no entry for `path`. -/
theorem run_removes_record (path audio_file_name user : String)
    (outcome : ToolOutcome) (reg : Registry) :
    ((run path audio_file_name user outcome reg).registry).get path = none := by
  cases outcome <;> exact Registry.get_remove_self _ path

/-- C2: when the external tool exits non-zero, `run` writes the job's
record as `error` carrying the captured standard-error text, emits a log
line for the failure, propagates no exception to its caller, and never
invokes the notification callback. -/
theorem run_failure_contained (path audio_file_name user stderr : String)
    (reg : Registry) :
    (run path audio_file_name user (ToolOutcome.failure stderr) reg).events =
        [JobEvent.set Status.starting none, JobEvent.set Status.processing none,
         JobEvent.set Status.error (some stderr), JobEvent.remove] ∧
    (run path audio_file_name user (ToolOutcome.failure stderr) reg).logs.length = 1 ∧
    (run path audio_file_name user (ToolOutcome.failure stderr) reg).raised = false ∧
    (run path audio_file_name user (ToolOutcome.failure stderr) reg).notifications = [] :=
  ⟨rfl, rfl, rfl, rfl⟩

/-- C3: when the external tool exits zero, `run` writes the job's record
as `done`, invokes the notification callback exactly once with
`(user, audio_file_name)`, and afterwards the job id is absent from
`task_status()`. -/
theorem run_success_notifies (path audio_file_name user : String)
    (reg : Registry) :
    (run path audio_file_name user ToolOutcome.success reg).events =
        [JobEvent.set Status.starting none, JobEvent.set Status.processing none,
         JobEvent.set Status.done none, JobEvent.remove] ∧
    (run path audio_file_name user ToolOutcome.success reg).notifications =
        [(user, audio_file_name)] ∧
    ((task_status (run path audio_file_name user ToolOutcome.success reg).registry).active_tasks).get
        path = none :=
  ⟨rfl, rfl, Registry.get_remove_self _ path⟩

/-- C4: `task_process(audio_file, user)` computes the expected job id from
the configured storage root, `user` and `audio_file`; it returns that
job's status string when the id is present in the registry and
`{"status": "not found"}` whenever the computed id is absent. -/
theorem task_process_lookup (file_path : String) (reg : Registry)
    (audio_file user : String) :
    (reg.get (jobId file_path user audio_file) = none →
      task_process file_path reg audio_file user = { status := "not found" }) ∧
    (∀ job, reg.get (jobId file_path user audio_file) = some job →
      task_process file_path reg audio_file user = { status := job.status.toString }) := by
  constructor
  · intro h
    simp [task_process, h]
  · intro job h
    simp [task_process, h]

/-- Witness for C4 at concrete inputs: a lookup against the empty registry
answers "not found" and a lookup of a present id answers its status. -/
theorem task_process_lookup_witness :
    task_process "/data" Registry.empty "a.mp3" "alice" = { status := "not found" } ∧
    task_process "/data" [("/data/bob/t.mp3", { status := Status.processing })]
        "t.mp3" "bob" = { status := "processing" } := by
  constructor
  · exact (task_process_lookup "/data" Registry.empty "a.mp3" "alice").1 (by decide)
  · exact (task_process_lookup "/data"
      [("/data/bob/t.mp3", { status := Status.processing })] "t.mp3" "bob").2
      { status := Status.processing } (by decide)

/-- C5: `GET /task-status` returns the full registry snapshot wrapped
under `active_tasks`, and in a well-formed registry an entry carries a
message only in the `error` state. -/
theorem task_status_snapshot_shape (reg : Registry) (h : reg.WF) :
    get_task_status reg = { active_tasks := reg } ∧
    ∀ id job, ((get_task_status reg).active_tasks).get id = some job →
      job.message.isSome → job.status = Status.error := by
  constructor
  · rfl
  · intro id job hget hmsg
    rcases Registry.mem_of_get_eq_some reg id job hget with ⟨p, hp, _, hpjob⟩
    exact hpjob ▸ h.2 p hp (hpjob ▸ hmsg)

/-- Witness for C5 at a concrete well-formed registry holding one error
record. -/
theorem task_status_snapshot_shape_witness :
    get_task_status [("/data/bob/t.mp3", { status := Status.error, message := some "boom" })] =
      { active_tasks := [("/data/bob/t.mp3", { status := Status.error, message := some "boom" })] } ∧
    ({ status := Status.error, message := some "boom" } : Job).status = Status.error := by
  refine ⟨(task_status_snapshot_shape _ (by decide)).1, ?_⟩
  exact (task_status_snapshot_shape
      [("/data/bob/t.mp3", { status := Status.error, message := some "boom" })]
      (by decide)).2 "/data/bob/t.mp3" _ (by decide) (by decide)

/-- C6: for every form value `doc` and token-verified request,
`audio_to_vtt` returns exactly
`{'status': 'success', 'message': 'audio into convert queue'}` and has no
other effect: the registry is untouched, no task is submitted and the
external tool is never invoked. -/
theorem audio_to_vtt_stub ( doc : String) (reg : Registry) :
    audio_to_vtt doc reg =
      { response := { status := "success", message := "audio into convert queue" }
        registry := reg
        submitted_tasks := []
        tool_invocations := 0 } :=
  rfl

/-- C7: for each of the authenticated user's audio files, `vtts` reports
status `'done'` with the vtt's name and last-modified timestamp exactly
when the vtt file exists; otherwise it reports `'in progress'` exactly
when `FILE_PATH/<username>/<audio name>` is a key of `ACTIVE_TASKS`, and
`'waiting'` otherwise. -/
theorem vttRow_status_cases (file_path username : String)
    (active_tasks : Registry) (get_vtt : String → Option VttFile)
    (audio : String) :
    ((vttRow file_path username active_tasks get_vtt audio).status = "done" ↔
        (get_vtt audio).isSome) ∧
    (∀ v, get_vtt audio = some v →
        vttRow file_path username active_tasks get_vtt audio =
          { audio := audio, vtt := v.name, status := "done", time := v.time }) ∧
    ((vttRow file_path username active_tasks get_vtt audio).status = "in progress" ↔
        get_vtt audio = none ∧
        (active_tasks.get (file_path ++ "/" ++ username ++ "/" ++ audio)).isSome) ∧
    ((vttRow file_path username active_tasks get_vtt audio).status = "waiting" ↔
        get_vtt audio = none ∧
        active_tasks.get (file_path ++ "/" ++ username ++ "/" ++ audio) = none) ∧
    (∀ audios : List String, audio ∈ audios →
        vttRow file_path username active_tasks get_vtt audio ∈
          vtts file_path username active_tasks audios get_vtt) := by
  have hne1 : ("done" : String) ≠ "in progress" := by decide
  have hne2 : ("done" : String) ≠ "waiting" := by decide
  have hne3 : ("in progress" : String) ≠ "done" := by decide
  have hne4 : ("in progress" : String) ≠ "waiting" := by decide
  have hne5 : ("waiting" : String) ≠ "done" := by decide
  have hne6 : ("waiting" : String) ≠ "in progress" := by decide
  refine ⟨?_, ?_, ?_, ?_, ?_⟩
  · cases hv : get_vtt audio with
    | none =>
      by_cases ht : (active_tasks.get (file_path ++ "/" ++ username ++ "/" ++ audio)).isSome
      · simp [vttRow, hv, ht, hne3]
      · simp [vttRow, hv, ht, hne5]
    | some v => simp [vttRow, hv]
  · intro v hv
    simp [vttRow, hv]
  · cases hv : get_vtt audio with
    | none =>
      by_cases ht : (active_tasks.get (file_path ++ "/" ++ username ++ "/" ++ audio)).isSome
      · simp [vttRow, hv, ht]
      · simp [vttRow, hv, ht, hne6, Option.isSome_iff_ne_none]
    | some v => simp [vttRow, hv, hne1]
  · cases hv : get_vtt audio with
    | none =>
      by_cases ht : (active_tasks.get (file_path ++ "/" ++ username ++ "/" ++ audio)).isSome
      · have hnn : active_tasks.get (file_path ++ "/" ++ username ++ "/" ++ audio) ≠ none :=
          Option.isSome_iff_ne_none.mp ht
        simp [vttRow, hv, ht, hne4, hnn]
      · simp [vttRow, hv, ht, Option.not_isSome_iff_eq_none.mp ht]
    | some v => simp [vttRow, hv, hne2]
  · intro audios ha
    exact List.mem_map_of_mem _ ha

/-- Witness for C7 at a concrete environment: one audio with an existing
vtt, one audio whose path is an active task, and one with neither. -/
theorem vttRow_status_cases_witness :
    vttRow "/data" "u" [("/data/u/b.mp3", { status := Status.processing })]
        (fun a => if a == "a.mp3" then some { name := "a.vtt", time := "t" } else none)
        "a.mp3" =
      { audio := "a.mp3", vtt := "a.vtt", status := "done", time := "t" } ∧
    (vttRow "/data" "u" [("/data/u/b.mp3", { status := Status.processing })]
        (fun a => if a == "a.mp3" then some { name := "a.vtt", time := "t" } else none)
        "b.mp3").status = "in progress" ∧
    (vttRow "/data" "u" [("/data/u/b.mp3", { status := Status.processing })]
        (fun a => if a == "a.mp3" then some { name := "a.vtt", time := "t" } else none)
        "c.mp3").status = "waiting" := by
  refine ⟨?_, ?_, ?_⟩
  · exact (vttRow_status_cases "/data" "u"
      [("/data/u/b.mp3", { status := Status.processing })]
      (fun a => if a == "a.mp3" then some { name := "a.vtt", time := "t" } else none)
      "a.mp3").2.1 { name := "a.vtt", time := "t" } (by decide)
  · exact ((vttRow_status_cases "/data" "u"
      [("/data/u/b.mp3", { status := Status.processing })]
      (fun a => if a == "a.mp3" then some { name := "a.vtt", time := "t" } else none)
      "b.mp3").2.2.1).mpr ⟨by decide, by decide⟩
  · exact ((vttRow_status_cases "/data" "u"
      [("/data/u/b.mp3", { status := Status.processing })]
      (fun a => if a == "a.mp3" then some { name := "a.vtt", time := "t" } else none)
      "c.mp3").2.2.2.1).mpr ⟨by decide, by decide⟩

/-- C8: the registry holds at most one record per path and a record
carries a message only in the `error` state; `set` (called with a message
only for `error`), `remove` and `snapshot` preserve this invariant, and
`get` only ever reads records satisfying it. -/
theorem registry_ops_preserve_invariant (reg : Registry) (id : String)
    (st : Status) (msg : Option String) (h : reg.WF)
    (hmsg : msg.isSome → st = Status.error) :
    (reg.set id st msg).WF ∧ (reg.remove id).WF ∧ (reg.snapshot).WF ∧
    (∀ id2 : String, reg.countKey id2 ≤ 1) ∧
    (∀ id2 job, reg.get id2 = some job → job.message.isSome →
        job.status = Status.error) := by
  refine ⟨Registry.set_WF reg id st msg h hmsg, Registry.remove_WF reg id h,
    h, fun id2 => Registry.countKey_le_one reg id2 h, ?_⟩
  intro id2 job hget hm
  rcases Registry.mem_of_get_eq_some reg id2 job hget with ⟨p, hp, _, hpjob⟩
  exact hpjob ▸ h.2 p hp (hpjob ▸ hm)

/-- Witness for C8 at a concrete well-formed registry. -/
theorem registry_ops_preserve_invariant_witness :
    (Registry.set [("a", { status := Status.processing })] "b"
        Status.error (some "boom")).WF ∧
    (Registry.remove [("a", { status := Status.processing })] "a").WF := by
  have h := registry_ops_preserve_invariant
    [("a", { status := Status.processing })] "a" Status.error (some "boom")
    (by decide) (by decide)
  have h2 := registry_ops_preserve_invariant
    [("a", { status := Status.processing })] "b" Status.error (some "boom")
    (by decide) (by decide)
  exact ⟨h2.1, h.2.1⟩

/-- C9 counterexample: on an unexpected fault during the tool invocation,
`run` performs only `starting`, `processing`, removal — the transition to
`done` or `error` is skipped, so the claimed four-step sequence does not
occur for this job. -/
theorem run_fault_order_counterexample :
    (run "/data/alice/lec.mp3" "lec.mp3" "alice" ToolOutcome.fault
        Registry.empty).events =
      [JobEvent.set Status.starting none, JobEvent.set Status.processing none,
       JobEvent.remove] ∧
    completesInOrder
      (run "/data/alice/lec.mp3" "lec.mp3" "alice" ToolOutcome.fault
        Registry.empty).events = false :=
  ⟨rfl, rfl⟩

/-- C9 amended: when the external tool exits (zero or non-zero), the job's
transitions occur in the strict order `starting`, `processing`, exactly
one of `done` or `error`, then removal; on an unexpected fault the
`done`/`error` transition is skipped and the order of the remaining
transitions (`starting`, `processing`, removal) is still strict. -/
theorem run_order_amended (path audio_file_name user stderr : String)
    (reg : Registry) :
    (run path audio_file_name user ToolOutcome.success reg).events =
        [JobEvent.set Status.starting none, JobEvent.set Status.processing none,
         JobEvent.set Status.done none, JobEvent.remove] ∧
    (run path audio_file_name user (ToolOutcome.failure stderr) reg).events =
        [JobEvent.set Status.starting none, JobEvent.set Status.processing none,
         JobEvent.set Status.error (some stderr), JobEvent.remove] ∧
    (run path audio_file_name user ToolOutcome.fault reg).events =
        [JobEvent.set Status.starting none, JobEvent.set Status.processing none,
         JobEvent.remove] ∧
    completesInOrder
        (run path audio_file_name user ToolOutcome.success reg).events = true ∧
    completesInOrder
        (run path audio_file_name user (ToolOutcome.failure stderr) reg).events = true :=
  ⟨rfl, rfl, rfl, rfl, rfl⟩

/-- C10: `multi_document` returns
`ErrorResponse('please upload your {f} first!', 400)` for the first file
`f` in list order whose path `FILE_PATH/<username>/<f>` does not exist,
for every choice of `analyze` (so `multi_document_analyze` is never
invoked); it returns the awaited `multi_document_analyze` result exactly
when every listed file exists. -/
theorem multi_document_checks_files {α : Type} (doc_exists : String → Bool)
    (analyze : List String → String → α) (file_path username : String)
    (files : List String) :
    (∀ f0, files.find?
        (fun f => !(doc_exists (file_path ++ "/" ++ username ++ "/" ++ f))) = some f0 →
      multi_document doc_exists analyze file_path username files =
        Except.error { message := "please upload your " ++ f0 ++ " first!", code := 400 }) ∧
    ((∀ f ∈ files, doc_exists (file_path ++ "/" ++ username ++ "/" ++ f) = true) →
      multi_document doc_exists analyze file_path username files =
        Except.ok (analyze files username)) := by
  constructor
  · intro f0 h
    unfold multi_document
    rw [multi_document_loop_first_missing doc_exists file_path username f0 files [] h]
  · intro h
    unfold multi_document
    rw [(multi_document_loop_eq_none doc_exists file_path username files []).mpr h]

/-- Witness for C10 at concrete inputs: with only `/d/u/a.txt` existing,
the handler rejects `["a.txt", "b.txt"]` naming `b.txt` and analyzes
`["a.txt"]`. -/
theorem multi_document_checks_files_witness :
    multi_document (fun s => s == "/d/u/a.txt")
        (fun fs _ => fs.length) "/d" "u" ["a.txt", "b.txt"] =
      Except.error { message := "please upload your b.txt first!", code := 400 } ∧
    multi_document (fun s => s == "/d/u/a.txt")
        (fun fs _ => fs.length) "/d" "u" ["a.txt"] = Except.ok 1 := by
  constructor
  · exact (multi_document_checks_files (fun s => s == "/d/u/a.txt")
      (fun fs _ => fs.length) "/d" "u" ["a.txt", "b.txt"]).1 "b.txt" (by decide)
  · exact (multi_document_checks_files (fun s => s == "/d/u/a.txt")
      (fun fs _ => fs.length) "/d" "u" ["a.txt"]).2 (by decide)

end SummarizeChat
